import Mathlib

/-!
Verification of the dialogue routing and response-streaming pipeline of the
customer-support front-end (source: `src/App.tsx`).

The embedding translates the pure logic of `App.tsx` into Lean:

* `detectIntent` (source lines 57-73) with its regular expressions rendered as
  explicit scanning functions over the lowercased character list;
* `analyzeSentiment` / `applyTone` (lines 133-151);
* the mocked tools and `runToolForIntent` (lines 76-130);
* the ticket-id construction `Math.random().toString(36).slice(2,8).toUpperCase()`
  (line 192), with the injected randomness represented by the list of fractional
  base-36 digits that `Number.toString(36)` prints for the drawn double
  (empty list for a draw of exactly 0, since `(0).toString(36) = "0"`);
* the streaming typing effect `streamModelReply` (lines 154-178), with the
  wall-clock timer loop rendered as a step iteration (`streamLoop`); the fuel
  argument `fullText.length + 1` strictly exceeds the number of timer callbacks
  the source schedules (the counter `i` grows by at least 1 per step and the
  loop stops once `i` exceeds `fullText.length`), so the fuel never runs out;
* the per-turn controller `handleSend` (lines 180-253) as a state transition.
  The external model call, `Date.now`/`toDateString` and the environment are
  collaborators; their outcomes are fields of `Env`.  `handleSend` returns the
  transcript as of its own return (the stream appends one empty model message
  and runs its first step synchronously) together with the text handed to
  streaming delivery, recorded in `TurnOut.streamed` as
  (captured `startIndex`, full reply text).

Character-level semantics (case mapping, `\s`, `\b`, `.`) are modelled after
the ASCII behaviour of the JavaScript engine; all string literals in the
program are ASCII apart from typographic punctuation, which is carried over
verbatim.  JavaScript string indices are UTF-16 code units; every string the
program manipulates stays within the basic multilingual plane, so characters
are a faithful rendering.
-/

set_option maxRecDepth 4000

/-- JavaScript word character for `\b` and `\w` (the source regexes are used
without the `u` flag, so this is ASCII `[A-Za-z0-9_]`). -/
def wordChar (c : Char) : Bool := c.isAlpha || c.isDigit || c = '_'

/-- JavaScript `\s` (WhiteSpace plus LineTerminator productions). -/
def jsWhitespace (c : Char) : Bool :=
  c = ' ' || c = '\t' || c = '\n' || c = '\r' || c = '\x0b' || c = '\x0c' ||
  c = '\u00A0' || c = '\u1680' || ('\u2000' ≤ c && c ≤ '\u200A') ||
  c = '\u2028' || c = '\u2029' || c = '\u202F' || c = '\u205F' ||
  c = '\u3000' || c = '\uFEFF'

/-- JavaScript line terminators, which `.` does not match. -/
def lineTerminator (c : Char) : Bool :=
  c = '\n' || c = '\r' || c = '\u2028' || c = '\u2029'

/-- `text.toLowerCase()` (ASCII case mapping, as relevant to the program). -/
def jsToLower (s : String) : String := String.mk (s.data.map Char.toLower)

/-- `input.trim()`: strip JavaScript whitespace from both ends. -/
def jsTrim (s : String) : String :=
  String.mk (((s.data.dropWhile jsWhitespace).reverse.dropWhile jsWhitespace).reverse)

/-- Does the word `w` occur as a contiguous substring of `cs`?  This is
`/(w)/.test(cs)` for a plain word `w`. -/
def isSubstring (w : List Char) : List Char → Bool
  | [] => w.isEmpty
  | c :: rest => w.isPrefixOf (c :: rest) || isSubstring w rest

/-- `/(w1|w2|...)/.test(t)`: some alternative occurs in `t`. -/
def anyTest (ws : List String) (t : String) : Bool :=
  ws.any fun w => isSubstring w.data t.data

/-- After a first-group match, can `.*(B1|B2|...)` match the remaining suffix?
`.` does not cross line terminators. -/
def findWordAfter (ws : List (List Char)) : List Char → Bool
  | [] => ws.any List.isEmpty
  | c :: rest =>
      ws.any (fun w => w.isPrefixOf (c :: rest)) ||
      (!lineTerminator c && findWordAfter ws rest)

/-- `/(A1|A2|...).*(B1|B2|...)/.test(cs)`: some `Ai` occurs, followed (with no
line terminator in between) by some `Bj`. -/
def seqTestAux (ws1 ws2 : List (List Char)) : List Char → Bool
  | [] => ws1.any fun w => w.isPrefixOf [] && findWordAfter ws2 (List.drop w.length [])
  | c :: rest =>
      ws1.any (fun w => w.isPrefixOf (c :: rest) && findWordAfter ws2 ((c :: rest).drop w.length)) ||
      seqTestAux ws1 ws2 rest

/-- String-level wrapper for `seqTestAux`. -/
def seqTest (ws1 ws2 : List String) (t : String) : Bool :=
  seqTestAux (ws1.map String.data) (ws2.map String.data) t.data

/-- Character class `[a-z0-9-]` of the order-id pattern (the input is already
lowercased, so the `i` flag adds nothing). -/
def idClassChar (c : Char) : Bool :=
  ('a' ≤ c && c ≤ 'z') || ('0' ≤ c && c ≤ '9') || c = '-'

/-- Tail `\s*([a-z0-9-]{5,})` of the order-id regex at the current position.
A shorter `\s*` than the maximal one would start the group on a whitespace
character, which is outside `[a-z0-9-]`, so only the greedy choice can match;
the group itself is greedy with nothing after it, so it takes the maximal run. -/
def idTail (cs : List Char) : Option (List Char) :=
  let run := (cs.dropWhile jsWhitespace).takeWhile idClassChar
  if 5 ≤ run.length then some run else none

/-- `(?:order|ord)\s*([a-z0-9-]{5,})` at the current position: the alternation
tries `order` first, then `ord`, backtracking like the JavaScript engine. -/
def idAfterMarker (cs : List Char) : Option (List Char) :=
  (if ("order".data).isPrefixOf cs then idTail (cs.drop 5) else none).orElse
    (fun _ => if ("ord".data).isPrefixOf cs then idTail (cs.drop 3) else none)

/-- `#?(?:order|ord)\s*([a-z0-9-]{5,})` at the current position: the optional
`#?` greedily consumes a leading `#` first. -/
def idHere (cs : List Char) : Option (List Char) :=
  match cs with
  | '#' :: rest => (idAfterMarker rest).orElse (fun _ => idAfterMarker ('#' :: rest))
  | _ => idAfterMarker cs

/-- Leftmost-first scan of `t.match(/#?(?:order|ord)\s*([a-z0-9-]{5,})/i)`,
returning capture group 1. -/
def idScan : List Char → Option (List Char)
  | [] => none
  | c :: rest => (idHere (c :: rest)).orElse (fun _ => idScan rest)

/-- `idMatch?.[1]` of source line 59. -/
def idMatch (t : String) : Option String := (idScan t.data).map fun l => String.mk l

/-- Is the position right after a digit a word boundary (end of input or a
non-word character)?  Used for the trailing `\b` of the ZIP pattern. -/
def boundaryAfterDigit : List Char → Bool
  | [] => true
  | c :: _ => !wordChar c

/-- Optional suffix `(?:-\d{4})?` followed by `\b`, tried on the suffix after
the five digits. -/
def zipSuffixOk : List Char → Bool
  | '-' :: r => ((r.take 4).length = 4 && (r.take 4).all Char.isDigit) && boundaryAfterDigit (r.drop 4)
  | _ => false

/-- Everything of `\b(\d{5})(?:-\d{4})?\b` except the leading boundary, at the
current position: five digits, then either the `-####` suffix ending at a
boundary or a boundary immediately after the digits.  (The engine tries the
greedy suffix first; which disjunct succeeds does not change the capture.) -/
def zipHeadOk (cs : List Char) : Bool :=
  ((cs.take 5).length = 5 && (cs.take 5).all Char.isDigit) &&
  (zipSuffixOk (cs.drop 5) || boundaryAfterDigit (cs.drop 5))

/-- Match of the ZIP pattern at the current position (leading `\b` checked by
the caller); the capture is the five digits. -/
def zipAt (cs : List Char) : Option (List Char) :=
  if zipHeadOk cs then some (cs.take 5) else none

/-- Leftmost scan for `\b(\d{5})(?:-\d{4})?\b`.  `prevw` records whether the
character before the current position is a word character (`false` at the
start of input); the first pattern token is `\b\d`, so a match can only start
where `prevw` is false. -/
def zipScan : Bool → List Char → Option (List Char)
  | _, [] => none
  | prevw, c :: rest =>
    match (if prevw then none else zipAt (c :: rest)) with
    | some r => some r
    | none => zipScan (wordChar c) rest

/-- `zipMatch?.[1]` of source line 60. -/
def zipMatch (t : String) : Option String := (zipScan false t.data).map fun l => String.mk l

/-- The tagged intent union of the source. -/
inductive Intent where
  | order_status (orderId : Option String)
  | shipping_eta (orderId : Option String) (postalCode : Option String)
  | return_policy
  | refund_policy
  | account_help
  | escalate
  | unknown
deriving DecidableEq, Repr

/-- `/(where|status|track).*(order|package)/.test(t)` (source line 62). -/
def rule1Hit (t : String) : Bool :=
  seqTest ["where", "status", "track"] ["order", "package"] t

/-- `/(when|arrive|coming|eta|delivery).*(order|package|shipping)/.test(t)` (line 65). -/
def rule2Hit (t : String) : Bool :=
  seqTest ["when", "arrive", "coming", "eta", "delivery"] ["order", "package", "shipping"] t

/-- `/(return|exchange).*(policy|how|can i)/.test(t)` (line 68). -/
def rule3Hit (t : String) : Bool :=
  seqTest ["return", "exchange"] ["policy", "how", "can i"] t

/-- `/(refund).*(policy|how|timeline)/.test(t)` (line 69). -/
def rule4Hit (t : String) : Bool :=
  seqTest ["refund"] ["policy", "how", "timeline"] t

/-- `/(login|account|password|profile|email change)/.test(t)` (line 70). -/
def rule5Hit (t : String) : Bool :=
  anyTest ["login", "account", "password", "profile", "email change"] t

/-- `/(human|agent|representative|someone|escalate)/.test(t)` (line 71). -/
def rule6Hit (t : String) : Bool :=
  anyTest ["human", "agent", "representative", "someone", "escalate"] t

/-- `detectIntent` (source lines 57-73): lowercase, then evaluate the rules in
fixed priority order, first match wins. -/
def detectIntent (text : String) : Intent :=
  let t := jsToLower text
  if rule1Hit t then Intent.order_status (idMatch t)
  else if rule2Hit t then Intent.shipping_eta (idMatch t) (zipMatch t)
  else if rule3Hit t then Intent.return_policy
  else if rule4Hit t then Intent.refund_policy
  else if rule5Hit t then Intent.account_help
  else if rule6Hit t then Intent.escalate
  else Intent.unknown

/-- The sentiment enum. -/
inductive Sentiment where
  | positive
  | neutral
  | negative
deriving DecidableEq, Repr

/-- Negative-language alternatives of source line 135. -/
def negTerms : List String :=
  ["angry", "upset", "frustrated", "bad", "hate", "terrible", "worst",
   "unacceptable", "late", "delay", "broken", "missing"]

/-- Positive-language alternatives of source line 136. -/
def posTerms : List String :=
  ["great", "thanks", "thank you", "awesome", "perfect", "good", "love"]

/-- Negative-set test on the (already lowercased) text. -/
def negHit (t : String) : Bool := anyTest negTerms t

/-- Positive-set test on the (already lowercased) text. -/
def posHit (t : String) : Bool := anyTest posTerms t

/-- `analyzeSentiment` (source lines 133-140). -/
def analyzeSentiment (text : String) : Sentiment :=
  let t := jsToLower text
  let neg := negHit t
  let pos := posHit t
  if neg && !pos then Sentiment.negative
  else if pos && !neg then Sentiment.positive
  else Sentiment.neutral

/-- `applyTone` (source lines 142-151). -/
def applyTone (reply userText : String) : String :=
  let sentiment := analyzeSentiment userText
  if sentiment = Sentiment.negative then "I’m really sorry for the trouble. " ++ reply
  else if sentiment = Sentiment.positive then "Happy to hear that! " ++ reply
  else reply

/-- A tool answer `{title, body}`. -/
structure ToolResult where
  title : String
  body : String
deriving DecidableEq, Repr

/-- JavaScript falsiness of an optional string: `undefined` and `""` are falsy
(the source tools guard with `if (!orderId)` and the like). -/
def jsFalsyOptStr : Option String → Bool
  | none => true
  | some s => s == ""

/-- The fixed status set of source line 81. -/
def statusList : List String :=
  ["Processing", "Packed", "Shipped", "Out for delivery", "Delivered"]

/-- JavaScript array indexing followed by template interpolation: an index
outside the array renders as `"undefined"`. -/
def jsIndexString (xs : List String) (i : Int) : String :=
  if i < 0 then "undefined" else (xs.get? i.toNat).getD "undefined"

/-- The status body template of source line 85. -/
def statusBody (oid st : String) : String :=
  "Order " ++ oid ++ " is currently: " ++ st ++ ". If this seems wrong, I can escalate to a human."

/-- `toolOrderStatus` (source lines 76-87); `r` is the `Math.random()` draw,
a real in `[0,1)` represented as a rational. -/
def toolOrderStatus (r : ℚ) (orderId : Option String) : ToolResult :=
  if jsFalsyOptStr orderId then
    { title := "Order status"
      body := "I can check that—please share your order ID (e.g., ORD-12345)." }
  else
    let status := jsIndexString statusList (Int.floor (r * (statusList.length : ℚ)))
    { title := "Order status", body := statusBody (orderId.getD "") status }

/-- `days = 2 + Math.floor(Math.random() * 4)` of source line 93. -/
def etaDays (r : ℚ) : Int := 2 + Int.floor (r * 4)

/-- Collaborator outcomes injected into a turn: the base-36 fractional digits
printed by `Math.random().toString(36)` for the ticket draw, the status and
ETA draws, the rendered `toDateString()` of the computed delivery date (the
calendar is an external collaborator), and the external model call outcome. -/
structure Env where
  ticketDigits : List Nat
  statusR : ℚ
  etaR : ℚ
  etaDate : String
  modelReply : Except Unit String

/-- `toolShippingEta` (source lines 89-96). -/
def toolShippingEta (env : Env) (orderId postalCode : Option String) : ToolResult :=
  if jsFalsyOptStr orderId || jsFalsyOptStr postalCode then
    { title := "Shipping ETA", body := "Share your order ID and destination ZIP to estimate delivery." }
  else
    { title := "Shipping ETA"
      body := "Estimated delivery for " ++ orderId.getD "" ++ " to " ++ postalCode.getD ""
                ++ ": " ++ env.etaDate ++ "." }

/-- `toolReturnPolicy` (source lines 98-101). -/
def toolReturnPolicy : ToolResult :=
  { title := "Return policy"
    body := "You can return most items within 30 days in original condition. Start in My Orders > Return. Prepaid label provided in eligible regions." }

/-- `toolRefundPolicy` (source lines 103-106). -/
def toolRefundPolicy : ToolResult :=
  { title := "Refund policy"
    body := "Refunds are issued to the original payment method within 5–7 business days after we receive your return." }

/-- `toolAccountHelp` (source lines 108-111). -/
def toolAccountHelp : ToolResult :=
  { title := "Account help"
    body := "For password resets, use Forgot Password on the sign-in page. For email or profile changes, go to Account Settings." }

/-- `runToolForIntent` (source lines 113-130); `null` for `unknown`. -/
def runToolForIntent (env : Env) : Intent → Option ToolResult
  | Intent.order_status oid => some (toolOrderStatus env.statusR oid)
  | Intent.shipping_eta oid zip => some (toolShippingEta env oid zip)
  | Intent.return_policy => some toolReturnPolicy
  | Intent.refund_policy => some toolRefundPolicy
  | Intent.account_help => some toolAccountHelp
  | Intent.escalate =>
      some { title := "Escalation"
             body := "I can connect you with a human agent. Please confirm: type \x27yes\x27 to proceed or ask anything else to continue with me." }
  | Intent.unknown => none

/-- Base-36 digit as printed by `Number.toString(36)` (lowercase). -/
def base36Digit (d : Nat) : Char :=
  if d < 10 then Char.ofNat ('0'.toNat + d) else Char.ofNat ('a'.toNat + (d - 10))

/-- `Math.random().toString(36)` as a function of the fractional base-36
digits the engine prints: `"0"` for a draw of exactly 0, otherwise `"0."`
followed by the digits. -/
def randToString36 : List Nat → String
  | [] => "0"
  | d :: ds => "0." ++ String.mk ((d :: ds).map base36Digit)

/-- The ticket id of source line 192:
`Math.random().toString(36).slice(2, 8).toUpperCase()`. -/
def ticketId (ds : List Nat) : String :=
  String.mk ((((randToString36 ds).data.drop 2).take 6).map Char.toUpper)

/-- The ticket-confirmation reply template of source line 193. -/
def ticketReply (tid : String) : String :=
  "Okay, connecting you to a human agent. I created support ticket #" ++ tid
    ++ ". An agent will reach out by email shortly."

/-- `/^(yes|yep|yeah|confirm|please)\b/i.test(trimmed)` (source line 191):
anchored at the start, case-insensitive, followed by a word boundary. -/
def affirmativeConfirm (s : String) : Bool :=
  let cs := (jsToLower s).data
  ["yes", "yep", "yeah", "confirm", "please"].any fun w =>
    (w.data).isPrefixOf cs &&
    (match cs.drop w.length with
     | [] => true
     | c :: _ => !wordChar c)

/-- A transcript message. -/
inductive Role where
  | user
  | model
deriving DecidableEq, Repr

/-- `ChatMessage` of source lines 8-11. -/
structure ChatMessage where
  role : Role
  content : String
deriving DecidableEq, Repr

/-- One reveal step of the streaming effect (the body of `step`, source lines
162-169): write `fullText.slice(0, i)` into the message at
`min(startIndex, copy.length - 1)` provided that slot holds a model message.
An out-of-range index (`copy[-1]` in JavaScript) leaves the list unchanged,
exactly like the `!current` guard. -/
def streamStep (startIndex : Nat) (fullText : String) (i : Nat) (msgs : List ChatMessage) : List ChatMessage :=
  let pos := min startIndex (msgs.length - 1)
  match msgs.get? pos with
  | none => msgs
  | some current =>
      if current.role = Role.model then
        msgs.set pos { role := Role.model, content := fullText.take i }
      else msgs

/-- `i += Math.max(1, Math.floor(fullText.length / 120))` (source line 170). -/
def streamInc (fullText : String) : Nat := max 1 (fullText.length / 120)

/-- The timer-driven reveal loop (source lines 160-177): run a step at the
current `i`, then advance `i` by `streamInc` and continue while
`i ≤ fullText.length`.  `fuel` only bounds the iteration count; since `i`
starts at 0 and grows by at least 1 per step, the loop performs at most
`fullText.length + 1` steps, so any fuel of at least that much is exact. -/
def streamLoop (startIndex : Nat) (fullText : String) : Nat → Nat → List ChatMessage → List ChatMessage
  | 0, _, msgs => msgs
  | fuel + 1, i, msgs =>
      let msgs' := streamStep startIndex fullText i msgs
      if i + streamInc fullText ≤ fullText.length then
        streamLoop startIndex fullText fuel (i + streamInc fullText) msgs'
      else msgs'

/-- `streamModelReply` run to termination (source lines 154-178): append one
empty model message, then execute every reveal step.  `closureLen` is
`messages.length` as captured by the enclosing render closure — the length of
the transcript *before* the user message of the current turn was appended —
and `msgs` is the actual transcript when the stream starts. -/
def streamModelReply (closureLen : Nat) (fullText : String) (msgs : List ChatMessage) : List ChatMessage :=
  streamLoop closureLen fullText (fullText.length + 1) 0 (msgs ++ [{ role := Role.model, content := "" }])

/-- The dialogue controller state: transcript, `lastIntentRef`, the quick-reply
suggestions, and the loading flag. -/
structure BotState where
  messages : List ChatMessage
  lastIntent : Intent
  suggestions : List String
  loading : Bool
deriving DecidableEq, Repr

/-- Result of one `handleSend` call: the state as of its return, plus the text
handed to streaming delivery together with the `startIndex` the stream
captured (`none` when nothing was streamed). -/
structure TurnOut where
  state : BotState
  streamed : Option (Nat × String)
deriving DecidableEq, Repr

/-- The suggestion switch of source lines 209-230. -/
def suggestionsForIntent : Intent → List String
  | Intent.order_status _ => ["Track shipping ETA", "This seems wrong → escalate", "Anything else?"]
  | Intent.shipping_eta _ _ => ["Remind me if delayed", "Change delivery address", "Talk to a human"]
  | Intent.return_policy => ["Start a return", "Refund timeline", "Anything else?"]
  | Intent.refund_policy => ["Check return status", "Payment method changes", "Talk to a human"]
  | Intent.account_help => ["Reset password", "Change email", "Close account"]
  | Intent.escalate => ["Yes, connect me", "No, continue here", "Anything else?"]
  | Intent.unknown => ["Where is my order?", "What’s your return policy?", "Talk to a human"]

/-- The fixed apology appended when the external model call fails (source
lines 246-249). -/
def apologyMessage : ChatMessage :=
  { role := Role.model, content := "Sorry, I ran into a problem generating a response. Please try again." }

/-- `handleSend` (source lines 180-253) as a state transition.  The transcript
in the result reflects every synchronous `setMessages` of the call: the user
append, the stream's empty-message append and the stream's first step (which
runs synchronously), or the apology append on model failure.  Later
timer-driven reveal steps are `streamLoop` applied to the recorded stream.
The prompt assembled for the external model (source lines 236-238) only feeds
the collaborator whose outcome is `env.modelReply`, so it is not materialised
here. -/
def handleSend (env : Env) (st : BotState) (input : String) : TurnOut :=
  let trimmed := jsTrim input
  if trimmed = "" ∨ st.loading then { state := st, streamed := none }
  else
    let nextMessages := st.messages ++ [{ role := Role.user, content := trimmed }]
    if st.lastIntent = Intent.escalate ∧ affirmativeConfirm trimmed then
      let reply := ticketReply (ticketId env.ticketDigits)
      let text := applyTone reply trimmed
      { state :=
          { messages := streamStep st.messages.length text 0
              (nextMessages ++ [{ role := Role.model, content := "" }])
            lastIntent := st.lastIntent
            suggestions := ["Add more details", "Update my email", "Anything else?"]
            loading := false }
        streamed := some (st.messages.length, text) }
    else
      let intent := detectIntent trimmed
      match runToolForIntent env intent with
      | some tr =>
          let text := applyTone (tr.title ++ ":\n" ++ tr.body) trimmed
          { state :=
              { messages := streamStep st.messages.length text 0
                  (nextMessages ++ [{ role := Role.model, content := "" }])
                lastIntent := intent
                suggestions := suggestionsForIntent intent
                loading := false }
            streamed := some (st.messages.length, text) }
      | none =>
          match env.modelReply with
          | Except.ok generated =>
              let text := applyTone generated trimmed
              { state :=
                  { messages := streamStep st.messages.length text 0
                      (nextMessages ++ [{ role := Role.model, content := "" }])
                    lastIntent := intent
                    suggestions := ["Track an order", "Returns & refunds", "Talk to a human"]
                    loading := false }
                streamed := some (st.messages.length, text) }
          | Except.error _ =>
              { state :=
                  { messages := nextMessages ++ [apologyMessage]
                    lastIntent := intent
                    suggestions := st.suggestions
                    loading := false }
                streamed := none }

/-- The greeting seeded into the transcript (source line 37). -/
def greeting : String := "Hi! I’m your ACME support assistant. How can I help today?"

/-- The initial controller state (source lines 36-43). -/
def initialBotState : BotState :=
  { messages := [{ role := Role.model, content := greeting }]
    lastIntent := Intent.unknown
    suggestions := ["Where is my order?", "What’s your return policy?", "Talk to a human"]
    loading := false }

/-- An environment whose external model call fails; the ticket draw is
`Math.random() = 0.5`, whose base-36 rendering is `"0.i"` (digit list `[18]`). -/
def envNoModel : Env :=
  { ticketDigits := [18], statusR := 0, etaR := 0, etaDate := "", modelReply := Except.error () }

/-- The controller state after the first turn of the escalation round-trip
(`"talk to a human"` classified as `escalate`; the streamed confirmation body
never reached the model message, see the streaming analysis below). -/
def pendingState : BotState :=
  { messages := [{ role := Role.model, content := greeting },
                 { role := Role.user, content := "talk to a human" },
                 { role := Role.model, content := "" }]
    lastIntent := Intent.escalate
    suggestions := ["Yes, connect me", "No, continue here", "Anything else?"]
    loading := false }

/-- The tone-composed reply streamed for the first `"talk to a human"` turn
(neutral sentiment, so no prefix): `"Escalation:\n"` plus the confirmation
body. -/
def escalationOffer : String :=
  "Escalation:\nI can connect you with a human agent. Please confirm: type \x27yes\x27 to proceed or ask anything else to continue with me."

/-- A reveal step aimed at a slot that holds a user message leaves the
transcript unchanged: the `role !== "model"` guard fires.  In every stream the
controller starts, `startIndex` is the captured pre-turn transcript length and
the user message of that turn sits exactly there. -/
theorem streamStep_user_fixed (startIndex i : Nat) (fullText u : String)
    (pre rest : List ChatMessage) (hlen : pre.length = startIndex) :
    streamStep startIndex fullText i (pre ++ { role := Role.user, content := u } :: rest)
      = pre ++ { role := Role.user, content := u } :: rest := by
  subst hlen
  unfold streamStep
  have hmin : min pre.length ((pre ++ { role := Role.user, content := u } :: rest).length - 1)
      = pre.length := by
    simp only [List.length_append, List.length_cons]
    omega
  have hget : (pre ++ { role := Role.user, content := u } :: rest).get? pre.length
      = some { role := Role.user, content := u } := by
    rw [List.get?_eq_getElem?, List.getElem?_append_right (Nat.le_refl _)]
    simp
  simp only [hmin, hget]
  simp

/-- C3: the claim states that running `stream(fullText)` to termination leaves
the target message's content exactly equal to `fullText`.  On the program as
written this fails on every turn: `startIndex` is read from the stale
`messages` closure of `handleSend`, so it indexes the user message appended
earlier in the same turn, and the `role !== "model"` guard turns every reveal
step into a no-op.  Concretely, for the first `"talk to a human"` turn the
controller hands `escalationOffer` to the stream (first conjunct), yet running
all reveal steps leaves the appended model message's content `""`, not
`escalationOffer` (third conjunct). -/
theorem c3_streaming_never_reveals :
    (handleSend envNoModel initialBotState "talk to a human").streamed = some (1, escalationOffer) ∧
    escalationOffer ≠ "" ∧
    streamModelReply 1 escalationOffer
        [{ role := Role.model, content := greeting },
         { role := Role.user, content := "talk to a human" }]
      = [{ role := Role.model, content := greeting },
         { role := Role.user, content := "talk to a human" },
         { role := Role.model, content := "" }] := by
  refine ⟨by decide, by decide, by decide⟩

/-- C4: a reveal step of a superseded stream never overwrites the newly
appended model message and never mutates the old one — it leaves the whole
transcript unchanged, because the stream's captured `startIndex` permanently
indexes the user message of its own turn (first conjunct, for any transcript
extending that shape; transcripts only grow at the end, second conjunct, so
the shape persists across later turns). -/
theorem c4_superseded_stream_noop :
    (∀ (startIndex i : Nat) (fullText u : String) (pre rest : List ChatMessage),
        pre.length = startIndex →
        streamStep startIndex fullText i (pre ++ { role := Role.user, content := u } :: rest)
          = pre ++ { role := Role.user, content := u } :: rest) ∧
    (∀ (env : Env) (st : BotState) (input : String),
        ∃ tail, (handleSend env st input).state.messages = st.messages ++ tail) := by
  constructor
  · intro startIndex i fullText u pre rest hlen
    exact streamStep_user_fixed startIndex i fullText u pre rest hlen
  · intro env st input
    unfold handleSend
    by_cases hg : jsTrim input = "" ∨ st.loading
    · rw [if_pos hg]
      exact ⟨[], by simp⟩
    · rw [if_neg hg]
      by_cases he : st.lastIntent = Intent.escalate ∧ affirmativeConfirm (jsTrim input)
      · rw [if_pos he]
        refine ⟨[{ role := Role.user, content := jsTrim input },
                 { role := Role.model, content := "" }], ?_⟩
        show streamStep st.messages.length _ 0
            ((st.messages ++ [{ role := Role.user, content := jsTrim input }])
              ++ [{ role := Role.model, content := "" }]) = _
        rw [List.append_assoc]
        exact streamStep_user_fixed _ _ _ _ _ _ rfl
      · rw [if_neg he]
        rcases hm : runToolForIntent env (detectIntent (jsTrim input)) with _ | tr
        · rcases hr : env.modelReply with e | generated
          · simp only [hm, hr]
            exact ⟨[{ role := Role.user, content := jsTrim input }, apologyMessage],
                   by rw [List.append_assoc]; rfl⟩
          · simp only [hm, hr]
            refine ⟨[{ role := Role.user, content := jsTrim input },
                     { role := Role.model, content := "" }], ?_⟩
            show streamStep st.messages.length _ 0
                ((st.messages ++ [{ role := Role.user, content := jsTrim input }])
                  ++ [{ role := Role.model, content := "" }]) = _
            rw [List.append_assoc]
            exact streamStep_user_fixed _ _ _ _ _ _ rfl
        · simp only [hm]
          refine ⟨[{ role := Role.user, content := jsTrim input },
                   { role := Role.model, content := "" }], ?_⟩
          show streamStep st.messages.length _ 0
              ((st.messages ++ [{ role := Role.user, content := jsTrim input }])
                ++ [{ role := Role.model, content := "" }]) = _
          rw [List.append_assoc]
          exact streamStep_user_fixed _ _ _ _ _ _ rfl

/-- Witness for C4: instantiating both parts at a concrete superseded stream
(old stream of turn 1, step landing on the old user message) and a concrete
new turn. -/
theorem c4_superseded_stream_noop_witness :
    streamStep 1 "new reply text" 7
        ([{ role := Role.model, content := greeting }] ++
          { role := Role.user, content := "talk to a human" } ::
            [{ role := Role.model, content := "" },
             { role := Role.user, content := "yes please" },
             { role := Role.model, content := "" }])
      = [{ role := Role.model, content := greeting }] ++
          { role := Role.user, content := "talk to a human" } ::
            [{ role := Role.model, content := "" },
             { role := Role.user, content := "yes please" },
             { role := Role.model, content := "" }] ∧
    ∃ tail, (handleSend envNoModel pendingState "yes please").state.messages
      = pendingState.messages ++ tail :=
  ⟨c4_superseded_stream_noop.1 1 7 "new reply text" "talk to a human"
      [{ role := Role.model, content := greeting }]
      [{ role := Role.model, content := "" },
       { role := Role.user, content := "yes please" },
       { role := Role.model, content := "" }] rfl,
   c4_superseded_stream_noop.2 envNoModel pendingState "yes please"⟩

/-- C5: any text matching both the order-status trigger (rule 1) and the
shipping-ETA trigger (rule 2) classifies as `order_status` — the rules run in
fixed priority order, first match wins — and never as `shipping_eta`. -/
theorem c5_priority_order_status (text : String)
    (h1 : rule1Hit (jsToLower text) = true)
    (h2 : rule2Hit (jsToLower text) = true) :
    detectIntent text = Intent.order_status (idMatch (jsToLower text)) ∧
    ∀ oid zip, detectIntent text ≠ Intent.shipping_eta oid zip := by
  have hd : detectIntent text = Intent.order_status (idMatch (jsToLower text)) := by
    unfold detectIntent
    simp only [h1, if_true]
  exact ⟨hd, fun oid zip h => by rw [hd] at h; cases h⟩

/-- Witness for C5 at a text matching both trigger patterns. -/
theorem c5_priority_order_status_witness :
    rule1Hit (jsToLower "when will my package arrive? where is my order") = true ∧
    rule2Hit (jsToLower "when will my package arrive? where is my order") = true ∧
    detectIntent "when will my package arrive? where is my order"
      = Intent.order_status (idMatch (jsToLower "when will my package arrive? where is my order")) :=
  ⟨by decide, by decide,
   (c5_priority_order_status "when will my package arrive? where is my order"
      (by decide) (by decide)).1⟩

/-- C6: `classify("Where is my order #ORD-99021?")` returns `order_status`
with `orderId` the substring matched by the extraction pattern
`#?(?:order|ord)\s*([a-z0-9-]{5,})` on the lowercased text — which is
`"-99021"` (the leftmost match anchors at `"#ord-99021?"`, consumes `#` and
`ord`, and captures the maximal `[a-z0-9-]` run), not `"ORD-99021"`. -/
theorem c6_classify_order_example :
    detectIntent "Where is my order #ORD-99021?" = Intent.order_status (some "-99021") ∧
    idMatch (jsToLower "Where is my order #ORD-99021?") = some "-99021" := by
  refine ⟨by decide, by decide⟩

/-- C8: the sentiment policy — `negative` exactly when a negative-set term
occurs and no positive-set term does, `positive` exactly in the mirrored case,
and `neutral` exactly when both or neither occur. -/
theorem c8_sentiment_policy (text : String) :
    (analyzeSentiment text = Sentiment.negative ↔
      (negHit (jsToLower text) = true ∧ posHit (jsToLower text) = false)) ∧
    (analyzeSentiment text = Sentiment.positive ↔
      (posHit (jsToLower text) = true ∧ negHit (jsToLower text) = false)) ∧
    (analyzeSentiment text = Sentiment.neutral ↔
      negHit (jsToLower text) = posHit (jsToLower text)) := by
  unfold analyzeSentiment
  cases hn : negHit (jsToLower text) <;> cases hp : posHit (jsToLower text) <;>
    simp [hn, hp]

/-- The ticket id has exactly `min 6 (number of printed base-36 digits)`
characters: `"0"` or `"0."` is sliced off and at most six digits remain. -/
theorem ticketId_length (ds : List Nat) : (ticketId ds).length = min 6 ds.length := by
  cases ds with
  | nil => decide
  | cons d tl =>
    have hdata : (randToString36 (d :: tl)).data = '0' :: '.' :: (d :: tl).map base36Digit := by
      show ("0." ++ String.mk ((d :: tl).map base36Digit)).data = _
      rw [String.data_append]
      rfl
    unfold ticketId
    rw [hdata]
    show ((((d :: tl).map base36Digit).take 6).map Char.toUpper).length = _
    simp
    omega

/-- Uppercasing a base-36 digit yields a decimal digit or an uppercase
letter. -/
theorem base36_upper_char :
    ∀ d, d < 36 → ((Char.toUpper (base36Digit d)).isDigit = true ∨
      ('A' ≤ Char.toUpper (base36Digit d) ∧ Char.toUpper (base36Digit d) ≤ 'Z')) := by
  decide

/-- Every character of the ticket id is an uppercase alphanumeric. -/
theorem ticketId_chars (ds : List Nat) (h : ∀ d ∈ ds, d < 36) :
    ∀ c ∈ (ticketId ds).data, c.isDigit = true ∨ ('A' ≤ c ∧ c ≤ 'Z') := by
  cases ds with
  | nil => intro c hc; cases hc
  | cons d tl =>
    have hdata : (randToString36 (d :: tl)).data = '0' :: '.' :: (d :: tl).map base36Digit := by
      show ("0." ++ String.mk ((d :: tl).map base36Digit)).data = _
      rw [String.data_append]
      rfl
    intro c hc
    unfold ticketId at hc
    rw [hdata] at hc
    have hc' : c ∈ (((d :: tl).map base36Digit).take 6).map Char.toUpper := hc
    obtain ⟨a, ha, rfl⟩ := List.mem_map.mp hc'
    obtain ⟨d', hd', rfl⟩ := List.mem_map.mp (List.mem_of_mem_take ha)
    exact base36_upper_char d' (h d' hd')

/-- An environment whose ticket draw prints six base-36 digits
(`"0.abcdef"`, i.e. digit list `[10,...,15]`). -/
def envSixDigits : Env :=
  { ticketDigits := [10, 11, 12, 13, 14, 15], statusR := 0, etaR := 0, etaDate := ""
    modelReply := Except.error () }

/-- C1 (counterexample to the claim as stated): with the pending flag set and
the affirmative input `"yes please"`, the randomness draw 0.5 — whose base-36
rendering is `"0.i"` — produces the ticket id `"I"`, a single character rather
than six, and that one-character id is what the confirmation reply carries. -/
theorem c1_ticket_six_chars_counterexample :
    (ticketId envNoModel.ticketDigits).length = 1 ∧
    (handleSend envNoModel pendingState "yes please").streamed =
      some (3, "Okay, connecting you to a human agent. I created support ticket #I. An agent will reach out by email shortly.") := by
  refine ⟨by decide, by decide⟩

/-- C1 (amended): with the pending flag set and an affirmative input, the
controller skips classification (`lastIntent` is untouched) and hands the
tone-composed ticket-confirmation reply to streaming; the ticket identifier
consists of uppercase alphanumeric characters and has exactly
`min 6 (number of fractional base-36 digits of the randomness)` characters —
at most six, and exactly six whenever the draw prints at least six digits. -/
theorem c1_escalation_ticket (env : Env) (st : BotState) (input : String)
    (hpend : st.lastIntent = Intent.escalate)
    (haff : affirmativeConfirm (jsTrim input) = true)
    (hne : jsTrim input ≠ "")
    (hload : st.loading = false)
    (hds : ∀ d ∈ env.ticketDigits, d < 36) :
    (handleSend env st input).streamed
        = some (st.messages.length,
            applyTone (ticketReply (ticketId env.ticketDigits)) (jsTrim input)) ∧
    (handleSend env st input).state.lastIntent = Intent.escalate ∧
    (ticketId env.ticketDigits).length = min 6 env.ticketDigits.length ∧
    ∀ c ∈ (ticketId env.ticketDigits).data, c.isDigit = true ∨ ('A' ≤ c ∧ c ≤ 'Z') := by
  have hg : ¬(jsTrim input = "" ∨ st.loading) := by
    rw [hload]; simp [hne]
  refine ⟨?_, ?_, ticketId_length _, ticketId_chars _ hds⟩
  · unfold handleSend
    rw [if_neg hg, if_pos ⟨hpend, haff⟩]
  · unfold handleSend
    rw [if_neg hg, if_pos ⟨hpend, haff⟩]
    exact hpend

/-- Witness for C1 (amended) at a six-digit draw and input `"Yes please"`. -/
theorem c1_escalation_ticket_witness :
    (handleSend envSixDigits pendingState "Yes please").streamed
        = some (pendingState.messages.length,
            applyTone (ticketReply (ticketId envSixDigits.ticketDigits)) (jsTrim "Yes please")) ∧
    (handleSend envSixDigits pendingState "Yes please").state.lastIntent = Intent.escalate ∧
    (ticketId envSixDigits.ticketDigits).length = min 6 envSixDigits.ticketDigits.length ∧
    ∀ c ∈ (ticketId envSixDigits.ticketDigits).data,
      c.isDigit = true ∨ ('A' ≤ c ∧ c ≤ 'Z') :=
  c1_escalation_ticket envSixDigits pendingState "Yes please" rfl (by decide) (by decide)
    rfl (by decide)

/-- C2 (counterexample to the claim as stated): after an affirmative
resolution the flag is *not* cleared — `lastIntent` is still `escalate` — and
a second `"yes please"` mints a second ticket instead of being classified
normally. -/
theorem c2_flag_not_cleared_counterexample :
    (handleSend envNoModel pendingState "yes please").state.lastIntent = Intent.escalate ∧
    (handleSend envNoModel
        ((handleSend envNoModel pendingState "yes please").state) "yes please").streamed
      = some (5, "Okay, connecting you to a human agent. I created support ticket #I. An agent will reach out by email shortly.") := by
  refine ⟨by decide, by decide⟩

/-- C2 (amended): for a turn that begins with the pending flag set, a
non-affirmative input resumes normal classification and overwrites
`lastIntent` (the offer lapses), but an affirmative input leaves `lastIntent`
equal to `escalate` — the pending flag survives the resolution attempt. -/
theorem c2_escalation_flag (env : Env) (st : BotState) (input : String)
    (hpend : st.lastIntent = Intent.escalate)
    (hne : jsTrim input ≠ "")
    (hload : st.loading = false) :
    (affirmativeConfirm (jsTrim input) = true →
      (handleSend env st input).state.lastIntent = Intent.escalate) ∧
    (affirmativeConfirm (jsTrim input) = false →
      (handleSend env st input).state.lastIntent = detectIntent (jsTrim input)) := by
  have hg : ¬(jsTrim input = "" ∨ st.loading) := by
    rw [hload]; simp [hne]
  constructor
  · intro haff
    unfold handleSend
    rw [if_neg hg, if_pos ⟨hpend, haff⟩]
    exact hpend
  · intro haff
    unfold handleSend
    rw [if_neg hg, if_neg (by simp [haff])]
    rcases hm : runToolForIntent env (detectIntent (jsTrim input)) with _ | tr
    · rcases hr : env.modelReply with e | g
      · simp [hm, hr]
      · simp [hm, hr]
    · simp [hm]

/-- Witness for C2 (amended): the non-pending-compatible input `"no thanks"`
after a pending turn is classified normally. -/
theorem c2_escalation_flag_witness :
    (handleSend envNoModel pendingState "no thanks").state.lastIntent
      = detectIntent (jsTrim "no thanks") :=
  (c2_escalation_flag envNoModel pendingState "no thanks" rfl (by decide) rfl).2 (by decide)

/-- C9: when the intent falls through to the external model and the call
fails, the controller appends exactly one fixed apology model message directly
— nothing is handed to streaming — and clears the loading flag, with no
retry (the transition performs a single collaborator call by construction). -/
theorem c9_model_failure_apology (env : Env) (st : BotState) (input : String)
    (hne : jsTrim input ≠ "")
    (hload : st.loading = false)
    (hnoesc : ¬(st.lastIntent = Intent.escalate ∧ affirmativeConfirm (jsTrim input) = true))
    (hunk : detectIntent (jsTrim input) = Intent.unknown)
    (herr : env.modelReply = Except.error ()) :
    (handleSend env st input).state.messages
        = st.messages ++ [{ role := Role.user, content := jsTrim input }, apologyMessage] ∧
    (handleSend env st input).streamed = none ∧
    (handleSend env st input).state.loading = false := by
  have hg : ¬(jsTrim input = "" ∨ st.loading) := by
    rw [hload]; simp [hne]
  unfold handleSend
  rw [if_neg hg, if_neg hnoesc]
  simp [hunk, runToolForIntent, herr, List.append_assoc]

/-- Witness for C9 at the unknown-intent input `"hello there"` with a failing
model call. -/
theorem c9_model_failure_apology_witness :
    (handleSend envNoModel initialBotState "hello there").state.messages
        = initialBotState.messages
            ++ [{ role := Role.user, content := jsTrim "hello there" }, apologyMessage] ∧
    (handleSend envNoModel initialBotState "hello there").streamed = none ∧
    (handleSend envNoModel initialBotState "hello there").state.loading = false :=
  c9_model_failure_apology envNoModel initialBotState "hello there" (by decide) rfl
    (by decide) (by decide) rfl

/-- C7: with `orderId` absent the order-status tool answers the fixed
clarifying question — which is never of the status-body shape, whatever the
randomness — and with a (truthy) `orderId` present it answers a status body
naming the order id and a status drawn from the fixed five-element set. -/
theorem c7_order_status_tool (r : ℚ) (h0 : 0 ≤ r) (h1 : r < 1) :
    (toolOrderStatus r none).body
        = "I can check that—please share your order ID (e.g., ORD-12345)." ∧
    (∀ oid st, (toolOrderStatus r none).body ≠ statusBody oid st) ∧
    (∀ oid, oid ≠ "" →
      ∃ st ∈ statusList, (toolOrderStatus r (some oid)).body = statusBody oid st) := by
  have hbody : (toolOrderStatus r none).body
      = "I can check that—please share your order ID (e.g., ORD-12345)." := rfl
  refine ⟨hbody, ?_, ?_⟩
  · intro oid st h
    rw [hbody] at h
    have hlen := congrArg String.length h
    rw [statusBody, String.length_append, String.length_append, String.length_append,
        String.length_append] at hlen
    have e1 : ("I can check that—please share your order ID (e.g., ORD-12345).").length = 62 := by
      decide
    have e2 : ("Order ").length = 6 := by decide
    have e3 : (" is currently: ").length = 15 := by decide
    have e4 : (". If this seems wrong, I can escalate to a human.").length = 49 := by decide
    rw [e1, e2, e3, e4] at hlen
    omega
  · intro oid hoid
    have hcast : (statusList.length : ℚ) = 5 := by norm_num [statusList]
    have h5 : (0:ℚ) ≤ r * (statusList.length : ℚ) := by
      rw [hcast]; exact mul_nonneg h0 (by norm_num)
    have h5' : r * (statusList.length : ℚ) < 5 := by
      rw [hcast]
      exact (mul_lt_iff_lt_one_left (by norm_num)).mpr h1
    have hfl0 : (0:ℤ) ≤ Int.floor (r * (statusList.length : ℚ)) := by
      exact Int.le_floor.mpr (by exact_mod_cast h5)
    have hfl5 : Int.floor (r * (statusList.length : ℚ)) < 5 := by
      exact Int.floor_lt.mpr (by exact_mod_cast h5')
    have hn : (Int.floor (r * (statusList.length : ℚ))).toNat < statusList.length := by
      have : statusList.length = 5 := by decide
      omega
    have hfalsy : jsFalsyOptStr (some oid) = false := by
      simp [jsFalsyOptStr, hoid]
    have hidx : jsIndexString statusList (Int.floor (r * (statusList.length : ℚ)))
        = statusList.get ⟨(Int.floor (r * (statusList.length : ℚ))).toNat, hn⟩ := by
      unfold jsIndexString
      rw [if_neg (by omega)]
      rw [List.get?_eq_getElem?, List.getElem?_eq_getElem hn]
      rfl
    refine ⟨statusList.get ⟨(Int.floor (r * (statusList.length : ℚ))).toNat, hn⟩,
            List.get_mem _ _ hn, ?_⟩
    show (toolOrderStatus r (some oid)).body = _
    unfold toolOrderStatus
    rw [if_neg (by simp [hfalsy])]
    rw [hidx]
    rfl

/-- Witness for C7 at the draw `r = 1/2` and order id `"ORD-77"`. -/
theorem c7_order_status_tool_witness :
    (toolOrderStatus (1/2) none).body
        = "I can check that—please share your order ID (e.g., ORD-12345)." ∧
    (toolOrderStatus (1/2) none).body ≠ statusBody "ORD-77" "Shipped" ∧
    ∃ st ∈ statusList, (toolOrderStatus (1/2) (some "ORD-77")).body = statusBody "ORD-77" st :=
  ⟨(c7_order_status_tool (1/2) (by norm_num) (by norm_num)).1,
   (c7_order_status_tool (1/2) (by norm_num) (by norm_num)).2.1 "ORD-77" "Shipped",
   (c7_order_status_tool (1/2) (by norm_num) (by norm_num)).2.2 "ORD-77" (by decide)⟩

/-- Word boundary before position `i`: at the start of the scan this is the
negation of `prevw` (the character left of the scan window), further in it is
decided by the character at `i - 1`.  The pattern continues with a digit, so a
boundary holds exactly when that character is not a word character. -/
def boundaryBeforeAt (prevw : Bool) (cs : List Char) : Nat → Bool
  | 0 => !prevw
  | j + 1 =>
    match cs.get? j with
    | some c => !wordChar c
    | none => false

/-- Position-indexed reading of the claim: a standalone five-digit run starts
at index `i` when a word boundary precedes it and five digits follow, ending
at a boundary either immediately or after an optional `-####` suffix. -/
def standaloneFiveAt (prevw : Bool) (cs : List Char) (i : Nat) : Bool :=
  boundaryBeforeAt prevw cs i && zipHeadOk (cs.drop i)

theorem zipAt_some_iff (cs r : List Char) :
    zipAt cs = some r ↔ (zipHeadOk cs = true ∧ r = cs.take 5) := by
  unfold zipAt
  split_ifs with h
  · simp [h, eq_comm]
  · simp [h]

theorem boundaryBeforeAt_shift (prevw : Bool) (c : Char) (rest : List Char) (i : Nat) :
    boundaryBeforeAt prevw (c :: rest) (i + 1) = boundaryBeforeAt (wordChar c) rest i := by
  cases i with
  | zero => rfl
  | succ j => rfl

theorem standaloneFiveAt_shift (prevw : Bool) (c : Char) (rest : List Char) (i : Nat) :
    standaloneFiveAt prevw (c :: rest) (i + 1) = standaloneFiveAt (wordChar c) rest i := by
  unfold standaloneFiveAt
  rw [boundaryBeforeAt_shift, List.drop_succ_cons]

theorem standaloneFiveAt_zero (prevw : Bool) (cs : List Char) :
    standaloneFiveAt prevw cs 0 = (!prevw && zipHeadOk cs) := rfl

/-- Reindexing a first standalone run across one scanned character. -/
theorem firstFive_shift (prevw : Bool) (c : Char) (rest r : List Char)
    (h0 : standaloneFiveAt prevw (c :: rest) 0 = false) :
    (∃ i, standaloneFiveAt prevw (c :: rest) i = true ∧
        (∀ j, j < i → standaloneFiveAt prevw (c :: rest) j = false) ∧
        r = ((c :: rest).drop i).take 5) ↔
    (∃ i, standaloneFiveAt (wordChar c) rest i = true ∧
        (∀ j, j < i → standaloneFiveAt (wordChar c) rest j = false) ∧
        r = (rest.drop i).take 5) := by
  constructor
  · rintro ⟨i, hi, hmin, hr⟩
    cases i with
    | zero => rw [h0] at hi; cases hi
    | succ i' =>
      refine ⟨i', ?_, ?_, hr⟩
      · rw [← standaloneFiveAt_shift]; exact hi
      · intro j hj
        rw [← standaloneFiveAt_shift]
        exact hmin (j + 1) (by omega)
  · rintro ⟨i, hi, hmin, hr⟩
    refine ⟨i + 1, ?_, ?_, hr⟩
    · rw [standaloneFiveAt_shift]; exact hi
    · intro j hj
      cases j with
      | zero => exact h0
      | succ j' => rw [standaloneFiveAt_shift]; exact hmin j' (by omega)

/-- The ZIP scan finds exactly the first standalone five-digit run: it returns
`some r` precisely when some position carries a standalone run, no earlier
position does, and `r` is the five digits there. -/
theorem zipScan_some_iff (r : List Char) :
    ∀ (cs : List Char) (prevw : Bool),
      zipScan prevw cs = some r ↔
        ∃ i, standaloneFiveAt prevw cs i = true ∧
          (∀ j, j < i → standaloneFiveAt prevw cs j = false) ∧
          r = (cs.drop i).take 5 := by
  intro cs
  induction cs with
  | nil =>
    intro prevw
    constructor
    · intro h
      simp [zipScan] at h
    · rintro ⟨i, hi, -, -⟩
      exfalso
      unfold standaloneFiveAt zipHeadOk at hi
      simp at hi
  | cons c rest ih =>
    intro prevw
    cases prevw with
    | true =>
      have hscan : zipScan true (c :: rest) = zipScan (wordChar c) rest := rfl
      rw [hscan, ih (wordChar c)]
      exact (firstFive_shift true c rest r (by rw [standaloneFiveAt_zero]; rfl)).symm
    | false =>
      rcases hz : zipAt (c :: rest) with _ | r0
      · have hho : zipHeadOk (c :: rest) = false := by
          cases hhh : zipHeadOk (c :: rest) with
          | false => rfl
          | true =>
            unfold zipAt at hz
            rw [if_pos hhh] at hz
            cases hz
        have hscan : zipScan false (c :: rest) = zipScan (wordChar c) rest := by
          conv_lhs => unfold zipScan
          rw [hz]
          rfl
        rw [hscan, ih (wordChar c)]
        refine (firstFive_shift false c rest r ?_).symm
        rw [standaloneFiveAt_zero, hho]
        rfl
      · obtain ⟨hho, hr0⟩ := (zipAt_some_iff _ _).mp hz
        have hscan : zipScan false (c :: rest) = some r0 := by
          conv_lhs => unfold zipScan
          rw [hz]
          rfl
        rw [hscan]
        constructor
        · intro h
          have hr : r0 = r := Option.some.inj h
          refine ⟨0, ?_, ?_, ?_⟩
          · rw [standaloneFiveAt_zero, hho]
            rfl
          · intro j hj
            exact absurd hj (Nat.not_lt_zero j)
          · rw [← hr]
            exact hr0
        · rintro ⟨i, hi, hmin, hr⟩
          cases i with
          | zero =>
            have hr' : r = (c :: rest).take 5 := hr
            rw [hr', ← hr0]
          | succ i' =>
            exfalso
            have h0 := hmin 0 (by omega)
            rw [standaloneFiveAt_zero, hho] at h0
            cases h0

/-- C10: whenever classification yields `shipping_eta`, the extracted
`postalCode` is exactly the first standalone five-digit run of the lowercased
text (optionally `-####`-suffixed) — digit runs inside the order-id token
included, since the scan only looks at word boundaries — and it is `none`
exactly when no position carries such a run. -/
theorem c10_postal_first_standalone (text : String) (oid zip : Option String)
    (h : detectIntent text = Intent.shipping_eta oid zip) :
    (∀ r : String, zip = some r →
      ∃ i, standaloneFiveAt false (jsToLower text).data i = true ∧
        (∀ j, j < i → standaloneFiveAt false (jsToLower text).data j = false) ∧
        r.data = ((jsToLower text).data.drop i).take 5) ∧
    (zip = none → ∀ i, standaloneFiveAt false (jsToLower text).data i = false) := by
  have hzip : zip = zipMatch (jsToLower text) := by
    unfold detectIntent at h
    by_cases h1 : rule1Hit (jsToLower text)
    · rw [if_pos h1] at h; cases h
    · rw [if_neg h1] at h
      by_cases h2 : rule2Hit (jsToLower text)
      · rw [if_pos h2] at h
        injection h with h_ hz
        exact hz.symm
      · rw [if_neg h2] at h
        by_cases h3 : rule3Hit (jsToLower text)
        · rw [if_pos h3] at h; cases h
        · rw [if_neg h3] at h
          by_cases h4 : rule4Hit (jsToLower text)
          · rw [if_pos h4] at h; cases h
          · rw [if_neg h4] at h
            by_cases h5 : rule5Hit (jsToLower text)
            · rw [if_pos h5] at h; cases h
            · rw [if_neg h5] at h
              by_cases h6 : rule6Hit (jsToLower text)
              · rw [if_pos h6] at h; cases h
              · rw [if_neg h6] at h; cases h
  constructor
  · intro r hr
    rw [hzip] at hr
    unfold zipMatch at hr
    rcases hsc : zipScan false (jsToLower text).data with _ | l
    · rw [hsc] at hr; cases hr
    · rw [hsc] at hr
      injection hr with hl
      obtain ⟨i, hi, hmin, hrl⟩ := (zipScan_some_iff l _ false).mp hsc
      refine ⟨i, hi, hmin, ?_⟩
      rw [← hl]
      exact hrl
  · intro hnone i
    rw [hzip] at hnone
    unfold zipMatch at hnone
    rcases hsc : zipScan false (jsToLower text).data with _ | l
    · by_contra hcon
      rw [Bool.not_eq_false] at hcon
      have hex : ∃ k, standaloneFiveAt false (jsToLower text).data k = true := ⟨i, hcon⟩
      have hk0 := Nat.find_spec hex
      have hk0min : ∀ j, j < Nat.find hex →
          standaloneFiveAt false (jsToLower text).data j = false := by
        intro j hj
        have hnj := Nat.find_min hex hj
        exact Bool.not_eq_true _ ▸ hnj
      have hsome := (zipScan_some_iff
          (((jsToLower text).data.drop (Nat.find hex)).take 5) _ false).mpr
        ⟨Nat.find hex, hk0, hk0min, rfl⟩
      rw [hsc] at hsome
      cases hsome
    · rw [hsc] at hnone; cases hnone

/-- Witness for C10: `"when will my order ord-99021 arrive"` classifies as
`shipping_eta` with order id `"ord-99021"` and postal code `"99021"` — the
five digits taken from inside the order-id token — and that run is indeed the
first standalone one. -/
theorem c10_postal_first_standalone_witness :
    detectIntent "when will my order ord-99021 arrive"
      = Intent.shipping_eta (some "ord-99021") (some "99021") ∧
    ∃ i, standaloneFiveAt false (jsToLower "when will my order ord-99021 arrive").data i = true ∧
      (∀ j, j < i →
        standaloneFiveAt false (jsToLower "when will my order ord-99021 arrive").data j = false) ∧
      ("99021" : String).data
        = ((jsToLower "when will my order ord-99021 arrive").data.drop i).take 5 :=
  ⟨by decide,
   (c10_postal_first_standalone "when will my order ord-99021 arrive"
      (some "ord-99021") (some "99021") (by decide)).1 "99021" rfl⟩

/-- Witness for C8 at the claim's boundary instance: text containing both a
positive term (`thanks`) and a negative term (`late`) classifies as neutral. -/
theorem c8_sentiment_policy_witness :
    analyzeSentiment "thanks, my order is late" = Sentiment.neutral :=
  (c8_sentiment_policy "thanks, my order is late").2.2.mpr (by decide)
